import Mathlib

/-!
Shallow embedding of the select-matching-features plugin core
(`src/core/selection_manager.py`, `src/core/expression_builder.py`,
`src/utils/operators.py`, `src/utils/settings_manager.py`).

Attribute values are modelled as a sum type (null, numeric, string);
a layer is a record of the host-layer observations the code consumes,
and each Python function becomes a Lean function returning its result
together with the (possibly mutated) layer state.  The call order of
host mutations inside `clear_filter_and_select_features` is made
observable through an explicit event trace.
-/

/-- Attribute value as seen by the Python code: `None`/null QVariant,
a numeric value, or a string. -/
inductive Value where
  | nullV : Value
  | intV (n : Int) : Value
  | strV (s : String) : Value
deriving DecidableEq, Repr

/-- Python truthiness of the null test in `apply_filter_to_selection`:
`pk_value is None or (hasattr(pk_value, 'isNull') and pk_value.isNull())`. -/
def Value.isNull : Value → Bool
  | .nullV => true
  | _ => false

/-- Value is a Python `str` (the `isinstance(first_value, str)` test). -/
def Value.isStr : Value → Bool
  | .strV _ => true
  | _ => false

/-- Python `str(value)` on an attribute value (used by `map(str, pk_values)`
in the numeric branch): numbers print bare, strings print without quotes. -/
def Value.pyStr : Value → String
  | .nullV => "NULL"
  | .intV n => toString n
  | .strV s => s

/-- One feature: its internal id (`feature.id()`) and its attribute map
(`feature[field_name]` lookups). -/
structure Feature where
  fid : Nat
  attrs : List (String × Value)
deriving DecidableEq, Repr

/-- The host-layer observations and state consumed by `SelectionManager`:
editability, the current selection, the field schema, the primary-key
attribute indexes, the subset filter string, the features a
`getFeatures()` enumeration yields under the current filter, and the
id-level selection set written by `selectByIds`. -/
structure Layer where
  isEditable : Bool
  selectedFeatures : List Feature
  fields : List String
  primaryKeyAttributes : List Nat
  subsetString : String
  visibleFeatures : List Feature
  selectedIds : List Nat
deriving DecidableEq, Repr

/-- `SelectionManager.has_edit_session`: returns `layer.isEditable()`. -/
def has_edit_session (layer : Layer) : Bool :=
  layer.isEditable

/-- Python `value.replace("'", "''")` at character level: every single
quote is replaced by two single quotes, all other characters kept. -/
def escapeSingleQuotes (s : String) : String :=
  String.mk (s.data.foldr (fun c acc => if c = '\'' then '\'' :: '\'' :: acc else c :: acc) [])

/-- The pk-value extraction loop of `apply_filter_to_selection`: reads
`feature[pk_field_name]` from each selected feature in order, skips null
values, and signals the exception path (`none`) if some feature lacks
the field. -/
def collectPkValues (features : List Feature) (pkFieldName : String) : Option (List Value) :=
  match features with
  | [] => some []
  | f :: rest =>
    match f.attrs.lookup pkFieldName with
    | none => none
    | some v =>
      match collectPkValues rest pkFieldName with
      | none => none
      | some vs => some (if v.isNull then vs else v :: vs)

/-- The string-branch comprehension
`[value.replace("'", "''") for value in pk_values]`: escapes each value,
or signals the exception path (`none`) when a value is not a `str`
(Python `AttributeError`). -/
def escapeAll (values : List Value) : Option (List String) :=
  match values with
  | [] => some []
  | .strV s :: rest => (escapeAll rest).map (fun es => escapeSingleQuotes s :: es)
  | _ :: _ => none

/-- The value-list construction of `apply_filter_to_selection`: the branch
is decided by `isinstance(first_value, str)`; the string branch quotes
every escaped value, the other branch joins `str(value)` bare. -/
def buildValueList (pkValues : List Value) : Option String :=
  match pkValues.head? with
  | some (.strV _) =>
    (escapeAll pkValues).map (fun es =>
      String.intercalate "," (es.map (fun e => "'" ++ e ++ "'")))
  | _ => some (String.intercalate "," (pkValues.map Value.pyStr))

/-- `SelectionManager.apply_filter_to_selection`: returns the
`(success, count, error_message)` tuple and the resulting layer state. -/
def apply_filter_to_selection (layerOpt : Option Layer) :
    (Bool × Nat × String) × Option Layer :=
  match layerOpt with
  | none => ((false, 0, "No layer provided"), none)
  | some layer =>
    if has_edit_session layer then
      ((false, 0, "Filter cannot be applied: Layer has an active edit session"), some layer)
    else if layer.selectedFeatures.isEmpty then
      ((false, 0, "No features selected"), some layer)
    else
      match layer.primaryKeyAttributes.head? with
      | none => ((false, 0, "Layer has no primary key"), some layer)
      | some pkIdx =>
        match layer.fields.get? pkIdx with
        | none => ((false, 0, "Primary key field not found"), some layer)
        | some pkFieldName =>
          match collectPkValues layer.selectedFeatures pkFieldName with
          | none => ((false, 0, "Failed to apply filter"), some layer)
          | some pkValues =>
            if pkValues.isEmpty then
              ((false, 0, "No valid primary key values found in selected features"), some layer)
            else
              match buildValueList pkValues with
              | none => ((false, 0, "Failed to apply filter"), some layer)
              | some valueList =>
                let filterString := "\"" ++ pkFieldName ++ "\" IN (" ++ valueList ++ ")"
                ((true, pkValues.length, ""), some { layer with subsetString := filterString })

/-- `SelectionManager.clear_filter`: resets the subset string to empty,
with no edit-session guard. -/
def clear_filter (layerOpt : Option Layer) : Bool × Option Layer :=
  match layerOpt with
  | none => (false, none)
  | some layer => (true, some { layer with subsetString := "" })

/-- `SelectionManager.has_active_filter`: `bool(layer.subsetString())`. -/
def has_active_filter (layerOpt : Option Layer) : Bool :=
  match layerOpt with
  | none => false
  | some layer => !layer.subsetString.isEmpty

/-- `SelectionManager.get_filtered_feature_ids`: ids of the features a
`getFeatures()` enumeration yields, or `[]` when the layer is absent or
no filter is active. -/
def get_filtered_feature_ids (layerOpt : Option Layer) : List Nat :=
  match layerOpt with
  | none => []
  | some layer =>
    if layer.subsetString.isEmpty then []
    else layer.visibleFeatures.map Feature.fid

/-- Observable host mutations and reads inside
`clear_filter_and_select_features`, in the order they are performed. -/
inductive Event where
  | snapshotRead : Event
  | filterClear : Event
  | selectByIds (ids : List Nat) : Event
deriving DecidableEq, Repr

/-- `SelectionManager.clear_filter_and_select_features`: returns the
result tuple, the resulting layer state, and the trace of host calls. -/
def clear_filter_and_select_features (layerOpt : Option Layer) :
    (Bool × Nat × String) × Option Layer × List Event :=
  match layerOpt with
  | none => ((false, 0, "No layer provided"), none, [])
  | some layer =>
    if layer.subsetString.isEmpty then
      ((false, 0, "No active filter to clear"), some layer, [])
    else
      let filteredIds := get_filtered_feature_ids (some layer)
      if filteredIds.isEmpty then
        ((false, 0, "No features in filter"), some layer, [Event.snapshotRead])
      else
        ((true, filteredIds.length, ""),
         some { layer with subsetString := "", selectedIds := filteredIds },
         [Event.snapshotRead, Event.filterClear, Event.selectByIds filteredIds])

/-- The `OperatorManager.OPERATORS` table: each symbol maps to its
display name and its NULL-comparison clause (when any). -/
def OPERATORS : List (String × String × Option String) :=
  [("=", ("Equal", some "IS NULL")),
   ("!=", ("Not Equal", some "IS NOT NULL")),
   ("<", ("Less Than", none)),
   (">", ("Greater Than", none)),
   ("<=", ("Less or Equal", none)),
   (">=", ("Greater or Equal", none))]

/-- `OperatorManager.is_null_compatible`:
`cls.OPERATORS.get(operator, {}).get('sql_null') is not None`. -/
def is_null_compatible (op : String) : Bool :=
  match OPERATORS.lookup op with
  | some (_, some _) => true
  | _ => false

/-- `OperatorManager.get_null_sql`:
`cls.OPERATORS.get(operator, {}).get('sql_null')`. -/
def get_null_sql (op : String) : Option String :=
  match OPERATORS.lookup op with
  | some (_, s) => s
  | none => none

/-- `OperatorManager.validate_operator`: `operator in cls.OPERATORS`. -/
def validate_operator (op : String) : Bool :=
  (OPERATORS.lookup op).isSome

/-- `OperatorManager.get_operator_name`:
`cls.OPERATORS.get(operator, {}).get('name', operator)` — an unknown
symbol falls through to the default, the symbol itself. -/
def get_operator_name (op : String) : String :=
  match OPERATORS.lookup op with
  | some (n, _) => n
  | none => op

/-- `ExpressionBuilder._build_null_expression`: rejects non-NULL-compatible
operators with a `ValueError`, else produces the `IS [NOT] NULL` form with
display label `"NULL"`. -/
def build_null_expression (fieldName op : String) : Except String (String × String) :=
  if !is_null_compatible op then
    .error ("Operator '" ++ op ++ "' cannot be used with NULL values. " ++
            "Only '=' (IS NULL) and '!=' (IS NOT NULL) are supported.")
  else
    .ok ("\"" ++ fieldName ++ ("\" " ++ (get_null_sql op).getD "None"), "NULL")

/-- `ExpressionBuilder._build_string_expression`: escapes single quotes by
doubling; the display value wraps the original text in single quotes. -/
def build_string_expression (fieldName op value : String) : String × String :=
  ("\"" ++ fieldName ++ "\" " ++ op ++ " '" ++ escapeSingleQuotes value ++ "'",
   "'" ++ value ++ "'")

/-- `ExpressionBuilder._build_numeric_expression`: bare numeric literal,
display value its string form. -/
def build_numeric_expression (fieldName op : String) (n : Int) : String × String :=
  ("\"" ++ fieldName ++ "\" " ++ op ++ " " ++ toString n, toString n)

/-- `ExpressionBuilder.build_expression`: dispatches on the value being
`None`, a `str`, or numeric. -/
def build_expression (fieldName op : String) (value : Value) :
    Except String (String × String) :=
  match value with
  | .nullV => build_null_expression fieldName op
  | .strV s => .ok (build_string_expression fieldName op s)
  | .intV n => .ok (build_numeric_expression fieldName op n)

/-- `SettingsManager.KEY_OPERATOR`. -/
def KEY_OPERATOR : String := "/SelectMatchingFeatures/operator"

/-- Host `QSettings` store modelled as an association list. -/
def Settings : Type := List (String × String)

/-- `QSettings.value(key, default)`. -/
def settings_value (st : Settings) (key deflt : String) : String :=
  ((List.lookup key st).getD deflt : String)

/-- `QSettings.setValue(key, value)`. -/
def settings_setValue (st : Settings) (key val : String) : Settings :=
  ((key, val) :: List.filter (fun p => p.1 != key) st : List (String × String))

/-- `SettingsManager.get_operator`: reads the operator key with default
`"="`. -/
def get_operator (st : Settings) : String :=
  settings_value st KEY_OPERATOR "="

/-- `SettingsManager.set_operator`: stores the symbol only when it is one
of the six valid operators; otherwise the store is left untouched. -/
def set_operator (st : Settings) (op : String) : Settings :=
  if op ∈ ["=", "!=", "<", ">", "<=", ">="] then
    settings_setValue st KEY_OPERATOR op
  else st

/-- A fresh settings store with no keys saved. -/
def freshSettings : Settings := ([] : List (String × String))

/-- Sample editable layer used by witnesses: edit session open, one
selected feature, a primary key, and an existing subset filter. -/
def editableFilteredLayer : Layer :=
  { isEditable := true
    selectedFeatures := [⟨1, [("pk", .intV 1)]⟩]
    fields := ["pk"]
    primaryKeyAttributes := [0]
    subsetString := "\"pk\" IN (9)"
    visibleFeatures := [⟨9, [("pk", .intV 9)]⟩]
    selectedIds := [] }

/-- C1: on a layer with an active edit session, `apply_filter_to_selection`
always returns the failure tuple carrying the edit-session message, and the
layer (in particular its subset filter string) is returned unchanged. -/
theorem apply_filter_edit_session_rejected (layer : Layer)
    (h : layer.isEditable = true) :
    apply_filter_to_selection (some layer) =
      ((false, 0, "Filter cannot be applied: Layer has an active edit session"),
       some layer) := by
  simp [apply_filter_to_selection, has_edit_session, h]

/-- Witness for C1 at a concrete editable layer. -/
theorem apply_filter_edit_session_rejected_witness :
    apply_filter_to_selection (some editableFilteredLayer) =
      ((false, 0, "Filter cannot be applied: Layer has an active edit session"),
       some editableFilteredLayer) :=
  apply_filter_edit_session_rejected editableFilteredLayer (by decide)

/-- C4: `build_expression` with an absent (null) value raises an
invalid-operator error for each of `<`, `>`, `<=`, `>=`; with `=` it
returns `"field" IS NULL` and with `!=` it returns `"field" IS NOT NULL`,
both with display label `"NULL"`. -/
theorem build_expression_null_value (field : String) :
    (∀ op ∈ (["<", ">", "<=", ">="] : List String),
      build_expression field op Value.nullV =
        .error ("Operator '" ++ op ++ "' cannot be used with NULL values. " ++
                "Only '=' (IS NULL) and '!=' (IS NOT NULL) are supported.")) ∧
    build_expression field "=" Value.nullV =
      .ok ("\"" ++ field ++ "\" IS NULL", "NULL") ∧
    build_expression field "!=" Value.nullV =
      .ok ("\"" ++ field ++ "\" IS NOT NULL", "NULL") := by
  refine ⟨?_, rfl, rfl⟩
  intro op hop
  fin_cases hop <;> rfl

/-- Witness for C4 at the concrete field name `"f"`. -/
theorem build_expression_null_value_witness :
    build_expression "f" "<" Value.nullV =
      .error ("Operator '<' cannot be used with NULL values. " ++
              "Only '=' (IS NULL) and '!=' (IS NOT NULL) are supported.") ∧
    build_expression "f" "=" Value.nullV = .ok ("\"f\" IS NULL", "NULL") :=
  ⟨(build_expression_null_value "f").1 "<" (by decide),
   (build_expression_null_value "f").2.1⟩

/-- C5: for every field name, operator and string value, the built
expression is `"field" OP 'escaped'` with each single quote of the value
doubled by `escapeSingleQuotes`, and the display value is the original
unescaped text wrapped in single quotes. -/
theorem build_expression_string_value (field op s : String) :
    build_expression field op (Value.strV s) =
      .ok ("\"" ++ field ++ "\" " ++ op ++ " '" ++ escapeSingleQuotes s ++ "'",
           "'" ++ s ++ "'") := rfl

/-- C8: storing a symbol outside the six valid operators leaves the
settings store (hence the operator later read back) unchanged, and
reading the operator from a fresh store yields `"="`. -/
theorem set_operator_invalid_unchanged (st : Settings) (op : String)
    (h : op ∉ (["=", "!=", "<", ">", "<=", ">="] : List String)) :
    set_operator st op = st ∧
    get_operator (set_operator st op) = get_operator st ∧
    get_operator freshSettings = "=" := by
  refine ⟨?_, ?_, rfl⟩ <;> simp [set_operator, h]

/-- Witness for C8: the unknown symbol `"~"` on a store holding `"<"`. -/
theorem set_operator_invalid_unchanged_witness :
    set_operator (set_operator freshSettings "<") "~" =
      set_operator freshSettings "<" ∧
    get_operator (set_operator (set_operator freshSettings "<") "~") =
      get_operator (set_operator freshSettings "<") ∧
    get_operator freshSettings = "=" :=
  set_operator_invalid_unchanged (set_operator freshSettings "<") "~" (by decide)

/-- Counterexample for C9: the display-name lookup of the unknown symbol
`"~"` returns the symbol itself, not an empty value. -/
theorem get_operator_name_unknown_cex :
    ("~" ∉ (["=", "!=", "<", ">", "<=", ">="] : List String)) ∧
    get_operator_name "~" = "~" ∧
    get_operator_name "~" ≠ "" := by decide

/-- C9 (amended): for every symbol not among the six registered operators,
the null-compatibility check returns `false`, the NULL-clause lookup
returns `none`, the validity check returns `false`, and the display-name
lookup falls back to the queried symbol itself; none of them fails. -/
theorem operator_lookups_unknown (op : String)
    (h : op ∉ (["=", "!=", "<", ">", "<=", ">="] : List String)) :
    is_null_compatible op = false ∧
    get_null_sql op = none ∧
    validate_operator op = false ∧
    get_operator_name op = op := by
  have hl : OPERATORS.lookup op = none := by
    simp only [List.mem_cons, List.not_mem_nil, or_false, not_or] at h
    obtain ⟨h1, h2, h3, h4, h5, h6⟩ := h
    simp [OPERATORS, List.lookup, beq_eq_false_iff_ne.mpr h1,
          beq_eq_false_iff_ne.mpr h2, beq_eq_false_iff_ne.mpr h3,
          beq_eq_false_iff_ne.mpr h4, beq_eq_false_iff_ne.mpr h5,
          beq_eq_false_iff_ne.mpr h6]
  exact ⟨by simp [is_null_compatible, hl], by simp [get_null_sql, hl],
         by simp [validate_operator, hl], by simp [get_operator_name, hl]⟩

/-- Witness for the amended C9 at the concrete symbol `"~"`. -/
theorem operator_lookups_unknown_witness :
    is_null_compatible "~" = false ∧
    get_null_sql "~" = none ∧
    validate_operator "~" = false ∧
    get_operator_name "~" = "~" :=
  operator_lookups_unknown "~" (by decide)

/-- C6: `clear_filter_and_select_features` fails leaving the layer (its
subset filter and its selection) unchanged when no filter is active or
the id snapshot is empty; on success the trace shows the snapshot read
strictly before the filter clear, which strictly precedes the
select-by-ids, so clear and select happen together or not at all. -/
theorem clear_filter_select_order (layer : Layer) :
    (layer.subsetString = "" →
      clear_filter_and_select_features (some layer) =
        ((false, 0, "No active filter to clear"), some layer, [])) ∧
    (layer.subsetString ≠ "" → layer.visibleFeatures = [] →
      clear_filter_and_select_features (some layer) =
        ((false, 0, "No features in filter"), some layer, [Event.snapshotRead])) ∧
    (layer.subsetString ≠ "" → layer.visibleFeatures ≠ [] →
      clear_filter_and_select_features (some layer) =
        ((true, layer.visibleFeatures.length, ""),
         some { layer with subsetString := ""
                           selectedIds := layer.visibleFeatures.map Feature.fid },
         [Event.snapshotRead, Event.filterClear,
          Event.selectByIds (layer.visibleFeatures.map Feature.fid)])) := by
  refine ⟨?_, ?_, ?_⟩
  · intro h
    have he : layer.subsetString.isEmpty = true := (String.isEmpty_iff _).mpr h
    simp [clear_filter_and_select_features, he]
  · intro h hv
    have he : layer.subsetString.isEmpty = false := by
      rw [Bool.eq_false_iff]
      intro hc
      exact h ((String.isEmpty_iff _).mp hc)
    simp [clear_filter_and_select_features, get_filtered_feature_ids, he, hv]
  · intro h hv
    have he : layer.subsetString.isEmpty = false := by
      rw [Bool.eq_false_iff]
      intro hc
      exact h ((String.isEmpty_iff _).mp hc)
    simp [clear_filter_and_select_features, get_filtered_feature_ids, he, hv]

/-- Witness for C6: the success branch on a concrete filtered layer. -/
theorem clear_filter_select_order_witness :
    clear_filter_and_select_features
        (some { editableFilteredLayer with isEditable := false }) =
      ((true, 1, ""),
       some { editableFilteredLayer with isEditable := false
                                         subsetString := ""
                                         selectedIds := [9] },
       [Event.snapshotRead, Event.filterClear, Event.selectByIds [9]]) := by
  have h := (clear_filter_select_order
      { editableFilteredLayer with isEditable := false }).2.2 (by decide) (by decide)
  simpa using h

/-- Counterexample for C7: on a layer whose edit session is open,
`clear_filter` succeeds and mutates the subset filter string, and
`clear_filter_and_select_features` also succeeds and clears it — neither
operation is rejected while the layer reports itself editable. -/
theorem clear_filter_edit_session_cex :
    editableFilteredLayer.isEditable = true ∧
    editableFilteredLayer.subsetString ≠ "" ∧
    clear_filter (some editableFilteredLayer) =
      (true, some { editableFilteredLayer with subsetString := "" }) ∧
    (clear_filter_and_select_features (some editableFilteredLayer)).1.1 = true ∧
    ((clear_filter_and_select_features (some editableFilteredLayer)).2.1).map
        Layer.subsetString = some "" := by decide

/-- C7 (amended): the edit-session guard covers only the application of a
filter — `apply_filter_to_selection` is rejected with the edit-session
message and leaves the layer untouched while the layer is editable —
whereas `clear_filter` proceeds regardless of editability and resets the
subset filter string. -/
theorem edit_session_guard_scope (layer : Layer)
    (h : layer.isEditable = true) :
    apply_filter_to_selection (some layer) =
      ((false, 0, "Filter cannot be applied: Layer has an active edit session"),
       some layer) ∧
    clear_filter (some layer) = (true, some { layer with subsetString := "" }) := by
  constructor
  · simp [apply_filter_to_selection, has_edit_session, h]
  · rfl

/-- Witness for the amended C7 at the concrete editable layer. -/
theorem edit_session_guard_scope_witness :
    apply_filter_to_selection (some editableFilteredLayer) =
      ((false, 0, "Filter cannot be applied: Layer has an active edit session"),
       some editableFilteredLayer) ∧
    clear_filter (some editableFilteredLayer) =
      (true, some { editableFilteredLayer with subsetString := "" }) :=
  edit_session_guard_scope editableFilteredLayer (by decide)

/-- The raw per-feature reads `feature[pk_field_name]` over the selected
features, in order, before the null test; `none` when a feature lacks
the field. -/
def featureValues (features : List Feature) (pkFieldName : String) :
    Option (List Value) :=
  match features with
  | [] => some []
  | f :: rest =>
    match f.attrs.lookup pkFieldName with
    | none => none
    | some v => (featureValues rest pkFieldName).map (fun vs => v :: vs)

/-- The extraction loop keeps exactly the non-null raw values, in their
encounter order. -/
theorem collectPkValues_eq_filter (features : List Feature) (pkFieldName : String)
    (vals : List Value) (h : featureValues features pkFieldName = some vals) :
    collectPkValues features pkFieldName =
      some (vals.filter (fun v => !v.isNull)) := by
  induction features generalizing vals with
  | nil =>
    simp [featureValues] at h
    subst h
    simp [collectPkValues]
  | cons f rest ih =>
    rw [featureValues] at h
    cases hl : f.attrs.lookup pkFieldName with
    | none => rw [hl] at h; exact absurd h (by simp)
    | some v =>
      rw [hl] at h
      cases hr : featureValues rest pkFieldName with
      | none => rw [hr] at h; exact absurd h (by simp)
      | some vs =>
        rw [hr] at h
        simp only [Option.map_some] at h
        obtain rfl : v :: vs = vals := by simpa using h
        rw [collectPkValues, hl, ih vs hr]
        cases hv : v.isNull <;> simp [List.filter_cons, hv]

/-- Helper: the value of `apply_filter_to_selection` once the guards have
passed and the extraction loop has produced its retained values. -/
theorem apply_filter_eq_of_collected (layer : Layer) (pkIdx : Nat)
    (pkName : String) (retained : List Value)
    (hEdit : layer.isEditable = false)
    (hSel : layer.selectedFeatures ≠ [])
    (hPk : layer.primaryKeyAttributes.head? = some pkIdx)
    (hField : layer.fields[pkIdx]? = some pkName)
    (hcoll : collectPkValues layer.selectedFeatures pkName = some retained) :
    apply_filter_to_selection (some layer) =
      if retained = [] then
        ((false, 0, "No valid primary key values found in selected features"),
         some layer)
      else
        match buildValueList retained with
        | none => ((false, 0, "Failed to apply filter"), some layer)
        | some valueList =>
          ((true, retained.length, ""),
           some { layer with
                  subsetString := "\"" ++ pkName ++ "\" IN (" ++ valueList ++ ")" }) := by
  rw [apply_filter_to_selection]
  have h1 : has_edit_session layer = false := hEdit
  have h2 : layer.selectedFeatures.isEmpty = false := by
    cases hls : layer.selectedFeatures with
    | nil => exact absurd hls hSel
    | cons a l => rfl
  rw [h1, if_neg (by simp), h2, if_neg (by simp), hPk]
  have h3 : layer.fields.get? pkIdx = some pkName := by
    simpa using hField
  dsimp only
  rw [h3]
  dsimp only
  rw [hcoll]
  dsimp only
  cases hr : retained with
  | nil => simp
  | cons v vs =>
    have h4 : (v :: vs).isEmpty = false := rfl
    rw [h4, if_neg (by simp), if_neg (by simp)]

/-- C2: the values the filter is built from are the raw primary-key reads
with each null dropped and the rest kept in encounter order; if no
non-null value remains the call fails with the
no-valid-primary-key-values message leaving the layer unchanged; and
whenever the call succeeds, the returned count equals the number of
retained values. -/
theorem apply_filter_pk_value_handling (layer : Layer) (pkIdx : Nat)
    (pkName : String) (vals : List Value)
    (hEdit : layer.isEditable = false)
    (hSel : layer.selectedFeatures ≠ [])
    (hPk : layer.primaryKeyAttributes.head? = some pkIdx)
    (hField : layer.fields[pkIdx]? = some pkName)
    (hVals : featureValues layer.selectedFeatures pkName = some vals) :
    collectPkValues layer.selectedFeatures pkName =
      some (vals.filter (fun v => !v.isNull)) ∧
    (vals.filter (fun v => !v.isNull) = [] →
      apply_filter_to_selection (some layer) =
        ((false, 0, "No valid primary key values found in selected features"),
         some layer)) ∧
    (∀ c msg layerOpt,
      apply_filter_to_selection (some layer) = ((true, c, msg), layerOpt) →
      c = (vals.filter (fun v => !v.isNull)).length) := by
  have hcoll := collectPkValues_eq_filter layer.selectedFeatures pkName vals hVals
  have happ := apply_filter_eq_of_collected layer pkIdx pkName
    (vals.filter (fun v => !v.isNull)) hEdit hSel hPk hField hcoll
  refine ⟨hcoll, ?_, ?_⟩
  · intro hnil
    rw [happ, if_pos hnil]
  · intro c msg layerOpt h
    rw [happ] at h
    by_cases hnil : vals.filter (fun v => !v.isNull) = []
    · rw [if_pos hnil] at h
      simp at h
    · rw [if_neg hnil] at h
      cases hbv : buildValueList (vals.filter (fun v => !v.isNull)) with
      | none =>
        rw [hbv] at h
        simp at h
      | some vl =>
        rw [hbv] at h
        simp only [Prod.mk.injEq] at h
        exact h.1.2.1.symm

/-- Sample layer for the C2 witness: selected features carrying the
primary-key values 3, 7, 7 and a null. -/
def nullMixLayer : Layer :=
  { isEditable := false
    selectedFeatures := [⟨1, [("pk", .intV 3)]⟩, ⟨2, [("pk", .intV 7)]⟩,
                         ⟨3, [("pk", .intV 7)]⟩, ⟨4, [("pk", .nullV)]⟩]
    fields := ["pk"]
    primaryKeyAttributes := [0]
    subsetString := ""
    visibleFeatures := []
    selectedIds := [] }

/-- Witness for C2 at the concrete layer with values `[3, 7, 7, null]`:
the null is dropped and the applied filter reports a count of 3. -/
theorem apply_filter_pk_value_handling_witness :
    collectPkValues nullMixLayer.selectedFeatures "pk" =
      some [Value.intV 3, Value.intV 7, Value.intV 7] ∧
    (apply_filter_to_selection (some nullMixLayer)).1 = (true, 3, "") := by
  have h := apply_filter_pk_value_handling nullMixLayer 0 "pk"
    [Value.intV 3, Value.intV 7, Value.intV 7, Value.nullV]
    (by decide) (by decide) (by decide) (by decide) (by decide)
  refine ⟨by simpa using h.1, ?_⟩
  have h3 := h.2.2 3 "" (apply_filter_to_selection (some nullMixLayer)).2 (by decide)
  decide

/-- Rendering of one value as the C3 claim words prescribe it: a string
value single-quoted with inner single quotes doubled, a numeric value
bare. -/
def claimedValueRender : Value → String
  | .strV s => "'" ++ escapeSingleQuotes s ++ "'"
  | .intV n => toString n
  | .nullV => "NULL"

/-- Value list as the C3 claim words prescribe it: each value rendered by
`claimedValueRender`, comma-joined. -/
def claimedValueList (vals : List Value) : String :=
  String.intercalate "," (vals.map claimedValueRender)

/-- Counterexample for C3: with retained primary-key values `[1, "a"]`
(first numeric), the applied predicate renders the string value bare —
`"pk" IN (1,a)` — not single-quoted as the claim prescribes for every
string value. -/
def mixedPkLayer : Layer :=
  { isEditable := false
    selectedFeatures := [⟨1, [("pk", .intV 1)]⟩, ⟨2, [("pk", .strV "a")]⟩]
    fields := ["pk"]
    primaryKeyAttributes := [0]
    subsetString := ""
    visibleFeatures := []
    selectedIds := [] }

/-- Counterexample theorem for C3 at `mixedPkLayer`. -/
theorem apply_filter_quoting_cex :
    collectPkValues mixedPkLayer.selectedFeatures "pk" =
      some [Value.intV 1, Value.strV "a"] ∧
    (apply_filter_to_selection (some mixedPkLayer)).1 = (true, 2, "") ∧
    ((apply_filter_to_selection (some mixedPkLayer)).2).map Layer.subsetString =
      some "\"pk\" IN (1,a)" ∧
    "\"pk\" IN (1,a)" ≠
      "\"pk\" IN (" ++ claimedValueList [Value.intV 1, Value.strV "a"] ++ ")" := by
  decide

/-- In a list of string values, the escaped-and-quoted forms coincide with
the claim's per-value rendering. -/
theorem escapeAll_all_str (vals : List Value)
    (h : ∀ v ∈ vals, v.isStr = true) :
    (escapeAll vals).map (List.map (fun e => "'" ++ e ++ "'")) =
      some (vals.map claimedValueRender) := by
  induction vals with
  | nil => rfl
  | cons v rest ih =>
    have hv := h v (List.mem_cons_self v rest)
    cases v with
    | nullV => simp [Value.isStr] at hv
    | intV n => simp [Value.isStr] at hv
    | strV s =>
      have ih2 := ih (fun w hw => h w (List.mem_cons_of_mem _ hw))
      cases he : escapeAll rest with
      | none => rw [he] at ih2; simp at ih2
      | some es =>
        rw [he] at ih2
        simp only [Option.map_some', Option.some.injEq] at ih2
        rw [escapeAll, he]
        simp [claimedValueRender, ih2]

/-- The value-list construction agrees with the claim's rendering whenever
the retained values are homogeneous (all strings, or none a string). -/
theorem buildValueList_homogeneous (vals : List Value)
    (h : (∀ v ∈ vals, v.isStr = true) ∨ (∀ v ∈ vals, v.isStr = false)) :
    buildValueList vals = some (claimedValueList vals) := by
  cases h with
  | inl hall =>
    cases vals with
    | nil => rfl
    | cons v rest =>
      have hv := hall v (List.mem_cons_self v rest)
      cases v with
      | nullV => simp [Value.isStr] at hv
      | intV n => simp [Value.isStr] at hv
      | strV s =>
        have hesc := escapeAll_all_str (.strV s :: rest) hall
        cases he : escapeAll (.strV s :: rest) with
        | none => rw [he] at hesc; simp at hesc
        | some es =>
          rw [he] at hesc
          simp only [Option.map_some', Option.some.injEq] at hesc
          rw [buildValueList]
          dsimp only [List.head?]
          rw [he]
          simp [claimedValueList, hesc]
  | inr hnone =>
    have hmap : vals.map Value.pyStr = vals.map claimedValueRender := by
      refine List.map_congr_left (fun v hv => ?_)
      have := hnone v hv
      cases v with
      | nullV => rfl
      | intV n => rfl
      | strV s => simp [Value.isStr] at this
    cases vals with
    | nil => rfl
    | cons v rest =>
      cases v with
      | strV s =>
        have := hnone _ (List.mem_cons_self _ rest)
        simp [Value.isStr] at this
      | intV n =>
        rw [buildValueList]
        dsimp only [List.head?]
        rw [claimedValueList, ← hmap]
      | nullV =>
        rw [buildValueList]
        dsimp only [List.head?]
        rw [claimedValueList, ← hmap]

/-- C3 (amended): whenever the retained primary-key values are non-empty
and homogeneous (all strings, or none a string — the branch is chosen by
the first value's type), the built predicate is
`"pk_field" IN (v1, v2, ...)` with every string value single-quoted and
inner quotes doubled and every numeric value bare, and it is assigned as
the layer's subset filter while the call reports success with the
retained count. -/
theorem apply_filter_homogeneous_predicate (layer : Layer) (pkIdx : Nat)
    (pkName : String) (retained : List Value)
    (hEdit : layer.isEditable = false)
    (hSel : layer.selectedFeatures ≠ [])
    (hPk : layer.primaryKeyAttributes.head? = some pkIdx)
    (hField : layer.fields[pkIdx]? = some pkName)
    (hRet : collectPkValues layer.selectedFeatures pkName = some retained)
    (hNe : retained ≠ [])
    (hHom : (∀ v ∈ retained, v.isStr = true) ∨ (∀ v ∈ retained, v.isStr = false)) :
    apply_filter_to_selection (some layer) =
      ((true, retained.length, ""),
       some { layer with
              subsetString :=
                "\"" ++ pkName ++ "\" IN (" ++ claimedValueList retained ++ ")" }) := by
  rw [apply_filter_eq_of_collected layer pkIdx pkName retained
        hEdit hSel hPk hField hRet,
      if_neg hNe, buildValueList_homogeneous retained hHom]

/-- Witness for the amended C3: an all-string value list containing an
embedded quote yields `"pk" IN ('o''x','b')`. -/
def strPkLayer : Layer :=
  { isEditable := false
    selectedFeatures := [⟨1, [("pk", .strV "o'x")]⟩, ⟨2, [("pk", .strV "b")]⟩]
    fields := ["pk"]
    primaryKeyAttributes := [0]
    subsetString := ""
    visibleFeatures := []
    selectedIds := [] }

/-- Witness theorem for the amended C3 at `strPkLayer`. -/
theorem apply_filter_homogeneous_predicate_witness :
    apply_filter_to_selection (some strPkLayer) =
      ((true, 2, ""),
       some { strPkLayer with subsetString := "\"pk\" IN ('o''x','b')" }) := by
  have h := apply_filter_homogeneous_predicate strPkLayer 0 "pk"
    [Value.strV "o'x", Value.strV "b"]
    (by decide) (by decide) (by decide) (by decide) (by decide) (by decide)
    (Or.inl (by decide))
  simpa using h

/-- C10: the filter is built exclusively from the first primary-key
attribute index — replacing a composite key by its first index alone
changes neither the returned result tuple nor the resulting subset
filter string. -/
theorem apply_filter_first_pk_only (layer : Layer) (i : Nat) (rest : List Nat)
    (h : layer.primaryKeyAttributes = i :: rest) :
    (apply_filter_to_selection (some layer)).1 =
      (apply_filter_to_selection
        (some { layer with primaryKeyAttributes := [i] })).1 ∧
    ((apply_filter_to_selection (some layer)).2).map Layer.subsetString =
      ((apply_filter_to_selection
        (some { layer with primaryKeyAttributes := [i] })).2).map
          Layer.subsetString := by
  obtain ⟨e, sel, flds, pka, ss, vis, sid⟩ := layer
  simp only at h
  subst h
  constructor <;>
  · simp only [apply_filter_to_selection, has_edit_session, List.head?_cons]
    split <;> try rfl
    split <;> try rfl
    split <;> try rfl
    split <;> try rfl
    all_goals split <;> try rfl
    all_goals split <;> rfl

/-- Composite-key layer for the C10 witness: two key attribute indexes,
only the first of which names the field used in the predicate. -/
def compositeKeyLayer : Layer :=
  { isEditable := false
    selectedFeatures := [⟨1, [("a", .intV 5), ("b", .intV 6)]⟩]
    fields := ["a", "b"]
    primaryKeyAttributes := [0, 1]
    subsetString := ""
    visibleFeatures := []
    selectedIds := [] }

/-- Witness for C10 at `compositeKeyLayer`: its composite key `[0, 1]`
yields the same result and the same predicate as the key `[0]` alone,
namely `"a" IN (5)`. -/
theorem apply_filter_first_pk_only_witness :
    (apply_filter_to_selection (some compositeKeyLayer)).1 =
      (apply_filter_to_selection
        (some { compositeKeyLayer with primaryKeyAttributes := [0] })).1 ∧
    ((apply_filter_to_selection (some compositeKeyLayer)).2).map
        Layer.subsetString =
      ((apply_filter_to_selection
        (some { compositeKeyLayer with primaryKeyAttributes := [0] })).2).map
          Layer.subsetString ∧
    ((apply_filter_to_selection (some compositeKeyLayer)).2).map
        Layer.subsetString = some "\"a\" IN (5)" := by
  have h := apply_filter_first_pk_only compositeKeyLayer 0 [1] (by decide)
  exact ⟨h.1, h.2, by decide⟩
